import Mathlib

/-!
Verification of the blog application's read-later, listing and comment
logic.  The repository ships `src/blog/urls.py` and `src/blog/tests.py`;
the view module itself (`views.py`) is not among the sources, so the
handlers are modelled from the specification (sections 4.1-4.3), while
the routing table is embedded directly from `urls.py`.
-/

namespace Blog

/-- Embedded from the data model: a blog post row.  Only the fields the
claims depend on are carried: the primary key `id`, the unique `slug`
and the creation `date` (an abstract timestamp). -/
structure Post where
  id : Nat
  slug : String
  date : Nat
  deriving Repr, DecidableEq

/-- Embedded from the data model: a comment row, linked to its parent
post by `postId`. -/
structure Comment where
  user_name : String
  user_email : String
  text : String
  postId : Nat
  deriving Repr, DecidableEq

/-- The server-side state a request handler can read and write: the post
table, the comment table, and this client session's `stored_posts` key
(`none` when the key is absent from the session). -/
structure ServerState where
  posts : List Post
  comments : List Comment
  stored_posts : Option (List Nat)
  deriving Repr, DecidableEq

/-- An HTTP response: the status code and, for redirects, the Location
header. -/
structure HttpResponse where
  status : Nat
  location : Option String
  deriving Repr, DecidableEq

/-- Embedded from src/blog/urls.py: one entry of `urlpatterns`, carrying
the route pattern and the route name passed to `path`. -/
structure UrlPattern where
  pattern : String
  name : String
  deriving Repr, DecidableEq

/-- Embedded from src/blog/urls.py lines 4-8: the URL routing table.
The file registers exactly three routes. -/
def urlpatterns : List UrlPattern :=
  [ { pattern := "", name := "index" },
    { pattern := "posts", name := "posts-page" },
    { pattern := "posts/<slug:slug>", name := "post-page-detail" } ]

/-- Django's `reverse`: look a route up by name in the routing table;
`none` models a `NoReverseMatch` error. -/
def reverse (routeName : String) : Option UrlPattern :=
  urlpatterns.find? (fun u => u.name == routeName)

/-- Modelled from the spec (section 4.1, views.py missing from the
sources): the ordering used by the post listing logic, "ordered by
creation date descending (most recent first); ties broken by identifier
descending".  `postBefore a b` holds when `a` may appear before `b`. -/
def postBefore (a b : Post) : Bool :=
  decide (b.date < a.date) || (decide (a.date = b.date) && decide (b.id ≤ a.id))

/-- Modelled from the spec (section 4.1, views.py missing from the
sources): the Post Listing Logic.  Return the posts ordered by creation
date descending with ties broken by identifier descending; with
`limit = some n` truncate to at most `n` posts, without a limit return
all. -/
def list_posts (db : List Post) (limit : Option Nat) : List Post :=
  let ordered := db.mergeSort postBefore
  match limit with
  | none => ordered
  | some n => ordered.take n

/-- Modelled from the spec (section 6, views.py missing from the
sources): the landing page view, GET `/`: up to the 3 most recent
posts.  A read-only handler, so the server state is returned
unchanged. -/
def index (s : ServerState) : List Post × ServerState :=
  (list_posts s.posts (some 3), s)

/-- Modelled from the spec (section 6, views.py missing from the
sources): the all-posts view, GET `/posts`: every post, most recent
first, no side effects. -/
def posts_view (s : ServerState) : List Post × ServerState :=
  (list_posts s.posts none, s)

/-- Modelled from the spec (section 4.2, views.py missing from the
sources): one toggle step on the stored id list.  If `postId` is
already present remove its first occurrence; else append it when it
refers to an existing post; otherwise leave the list unchanged. -/
def toggle (db : List Post) (stored : List Nat) (postId : Nat) : List Nat :=
  if postId ∈ stored then stored.erase postId
  else if db.any (fun p => p.id == postId) then stored ++ [postId]
  else stored

/-- Modelled from the spec (sections 4.2 and 6, views.py missing from
the sources): the POST `/read-later` handler.  Read the session list
(defaulting to empty when the key is absent), toggle `postId`, persist
the list back to the session, and always answer a 302 redirect to the
landing page. -/
def read_later_post (s : ServerState) (postId : Nat) : HttpResponse × ServerState :=
  let stored := s.stored_posts.getD []
  (⟨302, some "/"⟩, { s with stored_posts := some (toggle s.posts stored postId) })

/-- Modelled from the spec (section 4.2 operation list, views.py missing
from the sources): the GET `/read-later` handler.  Resolve the
session's ids to posts preserving the session list's order, silently
dropping ids that no longer resolve; `has_post` reports whether the
resolved list is non-empty.  Read-only. -/
def read_later_get (s : ServerState) : (List Post × Bool) × ServerState :=
  let stored := s.stored_posts.getD []
  let resolved := stored.filterMap (fun i => s.posts.find? (fun p => p.id == i))
  ((resolved, !resolved.isEmpty), s)

/-- Modelled from the spec (section 4.2, views.py missing from the
sources): a whole sequence of toggle operations applied to a stored id
list, left to right. -/
def apply_toggles (db : List Post) (ops : List Nat) (stored : List Nat) : List Nat :=
  ops.foldl (toggle db) stored

/-- A comment form submission as POSTed to a post detail page. -/
structure CommentFormData where
  user_name : String
  user_email : String
  text : String
  deriving Repr, DecidableEq

/-- Modelled from the spec (section 4.3): the "valid email shape" check
of the comment schema, approximated as containing an `@`. -/
def email_shape_ok (e : String) : Bool :=
  e.data.contains '@'

/-- Modelled from the spec (section 4.3, forms.py missing from the
sources): validation of the comment schema — non-empty user name, valid
email shape, non-empty text.  Returns the list of offending field
names; the form is valid exactly when this list is empty. -/
def comment_form_errors (f : CommentFormData) : List String :=
  (if f.user_name = "" then ["user_name"] else []) ++
  (if email_shape_ok f.user_email then [] else ["user_email"]) ++
  (if f.text = "" then ["text"] else [])

/-- The outcome of POSTing a comment form to a detail URL: the HTTP
response together with the validation errors carried by the re-rendered
form (empty on the redirect and not-found paths). -/
structure SubmitResult where
  response : HttpResponse
  formErrors : List String
  deriving Repr, DecidableEq

/-- Modelled from the spec (section 4.3, views.py missing from the
sources): `submit(slug, formData)`.  Resolve the post by slug (404 when
absent); on a valid form persist one new Comment linked to the post and
redirect 302 to the same detail URL; on an invalid form re-render with
status 200, the form carrying its field-level errors, persisting
nothing. -/
def submit (s : ServerState) (slug : String) (f : CommentFormData) :
    SubmitResult × ServerState :=
  match s.posts.find? (fun p => p.slug == slug) with
  | none => (⟨⟨404, none⟩, []⟩, s)
  | some p =>
    if (comment_form_errors f).isEmpty then
      (⟨⟨302, some ("/posts/" ++ slug)⟩, []⟩,
       { s with comments := s.comments ++ [⟨f.user_name, f.user_email, f.text, p.id⟩] })
    else
      (⟨⟨200, none⟩, comment_form_errors f⟩, s)

/-- C1: the spec claims the URL routing table contains a read-later
route in addition to the index, all-posts and post-detail routes.  In
src/blog/urls.py no such route exists, while src/blog/tests.py line 207
computes `reverse` of the name "read-later": the lookup fails although
the three routes that do exist all resolve. -/
theorem c1_read_later_route_missing :
    reverse "read-later" = none ∧
    (reverse "index").isSome = true ∧
    (reverse "posts-page").isSome = true ∧
    (reverse "post-page-detail").isSome = true := by
  decide

/-- The listing comparison is transitive, as `sorted_mergeSort`
requires. -/
theorem postBefore_trans (a b c : Post) (h1 : postBefore a b) (h2 : postBefore b c) :
    postBefore a c := by
  simp only [postBefore, Bool.or_eq_true, Bool.and_eq_true, decide_eq_true_eq] at *
  omega

/-- The listing comparison is total, as `sorted_mergeSort` requires. -/
theorem postBefore_total (a b : Post) : postBefore a b || postBefore b a := by
  simp only [postBefore, Bool.or_eq_true, Bool.and_eq_true, decide_eq_true_eq]
  omega

/-- The full listing (no limit) is a permutation of the table, sorted by
the listing comparison. -/
theorem list_posts_none_spec (db : List Post) :
    (list_posts db none).Perm db ∧
    List.Pairwise (fun a b => postBefore a b = true) (list_posts db none) := by
  constructor
  · exact List.mergeSort_perm db postBefore
  · exact List.sorted_mergeSort postBefore_trans postBefore_total db

/-- A limited listing is a sorted prefix: at most `n` posts, pairwise in
listing order, all drawn from the table. -/
theorem list_posts_some_spec (db : List Post) (n : Nat) :
    (list_posts db (some n)).length ≤ n ∧
    List.Pairwise (fun a b => postBefore a b = true) (list_posts db (some n)) ∧
    ∀ p ∈ list_posts db (some n), p ∈ db := by
  refine ⟨?_, ?_, ?_⟩
  · simp [list_posts]
  · exact List.Pairwise.sublist (List.take_sublist _ _)
      (List.sorted_mergeSort postBefore_trans postBefore_total db)
  · intro p hp
    have hp2 : p ∈ db.mergeSort postBefore :=
      (List.take_sublist _ _).subset hp
    exact (List.mem_mergeSort).mp hp2

/-- C5: for every database with at least 3 stored posts, GET `/` returns
at most 3 posts, pairwise ordered by creation date descending with ties
broken by identifier descending, each of them a stored post. -/
theorem c5_index_three_most_recent (s : ServerState) (_h : 3 ≤ s.posts.length) :
    (index s).1.length ≤ 3 ∧
    List.Pairwise (fun a b => postBefore a b = true) (index s).1 ∧
    ∀ p ∈ (index s).1, p ∈ s.posts :=
  list_posts_some_spec s.posts 3

/-- A concrete database of four posts, with a creation-date tie between
ids 2 and 3, used to instantiate the universally quantified theorems. -/
def samplePosts : List Post :=
  [⟨1, "first-post", 10⟩, ⟨2, "second-post", 20⟩,
   ⟨3, "third-post", 20⟩, ⟨4, "fourth-post", 5⟩]

/-- A concrete server state over `samplePosts` with an empty session. -/
def sampleState : ServerState :=
  { posts := samplePosts, comments := [], stored_posts := none }

/-- Witness for C5 at the concrete four-post state. -/
theorem c5_witness :
    (index sampleState).1.length ≤ 3 ∧
    List.Pairwise (fun a b => postBefore a b = true) (index sampleState).1 ∧
    ∀ p ∈ (index sampleState).1, p ∈ sampleState.posts :=
  c5_index_three_most_recent sampleState (by decide)

/-- C6: for every database state, GET `/posts` returns exactly the full
post table (a permutation, hence the full count), pairwise ordered by
creation date descending with ties broken by identifier descending, and
the request leaves the server state unchanged. -/
theorem c6_posts_view_all_sorted (s : ServerState) :
    (posts_view s).1.Perm s.posts ∧
    (posts_view s).1.length = s.posts.length ∧
    List.Pairwise (fun a b => postBefore a b = true) (posts_view s).1 ∧
    (posts_view s).2 = s := by
  obtain ⟨hperm, hsorted⟩ := list_posts_none_spec s.posts
  exact ⟨hperm, hperm.length_eq, hsorted, rfl⟩

/-- Toggling preserves freedom from duplicates. -/
theorem toggle_nodup (db : List Post) (stored : List Nat) (pid : Nat)
    (h : stored.Nodup) : (toggle db stored pid).Nodup := by
  by_cases hmem : pid ∈ stored
  · simpa [toggle, hmem] using h.erase pid
  · by_cases hex : db.any (fun p => p.id == pid) = true
    · simp [toggle, hmem, hex, List.nodup_append, h]
    · simpa [toggle, hmem, hex] using h

/-- C2: for every bookmark list satisfying the data-model invariant (no
duplicate identifiers) and every post id that resolves to an existing
post, toggling the id twice in succession returns the list to exactly
its original membership. -/
theorem c2_toggle_twice_membership (db : List Post) (stored : List Nat) (pid : Nat)
    (hnodup : stored.Nodup) (hvalid : db.any (fun p => p.id == pid) = true)
    (q : Nat) :
    q ∈ toggle db (toggle db stored pid) pid ↔ q ∈ stored := by
  by_cases hmem : pid ∈ stored
  · have h1 : toggle db stored pid = stored.erase pid := by simp [toggle, hmem]
    have hpout : pid ∉ stored.erase pid := by
      intro hc
      exact ((hnodup.mem_erase_iff).mp hc).1 rfl
    have h2 : toggle db (stored.erase pid) pid = stored.erase pid ++ [pid] := by
      simp [toggle, hpout, hvalid]
    rw [h1, h2]
    simp only [List.mem_append, hnodup.mem_erase_iff, List.mem_singleton]
    by_cases hq : q = pid
    · simp [hq, hmem]
    · simp [hq]
  · have h1 : toggle db stored pid = stored ++ [pid] := by simp [toggle, hmem, hvalid]
    have hpin : pid ∈ stored ++ [pid] := by simp
    have h2 : toggle db (stored ++ [pid]) pid = (stored ++ [pid]).erase pid := by
      simp [toggle, hpin]
    have h3 : (stored ++ [pid]).erase pid = stored := by
      rw [List.erase_append_right _ hmem]
      simp
    rw [h1, h2, h3]

/-- Witness for C2: membership of 3 is restored after toggling post id 1
twice on the singleton stored list. -/
theorem c2_witness :
    3 ∈ toggle samplePosts (toggle samplePosts [3] 1) 1 ↔ 3 ∈ [3] :=
  c2_toggle_twice_membership samplePosts [3] 1 (by decide) (by decide) 3

/-- A state whose session already stores the id 9, which resolves to no
post of `samplePosts` (a post bookmarked and then deleted). -/
def staleState : ServerState :=
  { posts := samplePosts, comments := [], stored_posts := some [9] }

/-- Counterexample to C3 as stated: id 9 resolves to no existing post,
yet the toggle operation does not leave `stored_posts` unchanged — the
stale id, being already present in the list, is removed. -/
theorem c3_counterexample :
    staleState.posts.any (fun p => p.id == 9) = false ∧
    (read_later_post staleState 9).2.stored_posts ≠ staleState.stored_posts := by
  decide

/-- C3 amended: if the toggled id resolves to no existing post and is
not already present in the stored list, the list's contents are left
exactly unchanged, and the response is a 302 redirect to `/` with no
error surfaced. -/
theorem c3_amended_nonexistent_noop (s : ServerState) (pid : Nat)
    (hmiss : s.posts.any (fun p => p.id == pid) = false)
    (hnotin : pid ∉ s.stored_posts.getD []) :
    (read_later_post s pid).2.stored_posts = some (s.stored_posts.getD []) ∧
    (read_later_post s pid).1.status = 302 ∧
    (read_later_post s pid).1.location = some "/" := by
  refine ⟨?_, rfl, rfl⟩
  simp [read_later_post, toggle, hmiss, hnotin]

/-- A state storing only the valid id 3, used to instantiate the amended
C3 at the nonexistent id 9. -/
def validStoredState : ServerState :=
  { posts := samplePosts, comments := [], stored_posts := some [3] }

/-- Witness for the amended C3 at a concrete state and the nonexistent
id 9. -/
theorem c3_witness :
    (read_later_post validStoredState 9).2.stored_posts
      = some (validStoredState.stored_posts.getD []) ∧
    (read_later_post validStoredState 9).1.status = 302 ∧
    (read_later_post validStoredState 9).1.location = some "/" :=
  c3_amended_nonexistent_noop validStoredState 9 (by decide) (by decide)

/-- Any toggle sequence starting from a duplicate-free list keeps the
list duplicate-free. -/
theorem apply_toggles_nodup (db : List Post) (ops : List Nat) :
    ∀ stored : List Nat, stored.Nodup → (apply_toggles db ops stored).Nodup := by
  induction ops with
  | nil => intro stored h; simpa [apply_toggles] using h
  | cons op rest ih =>
    intro stored h
    simpa [apply_toggles] using ih (toggle db stored op) (toggle_nodup db stored op h)

/-- C9: starting from the empty session list, after any sequence of
toggle operations the stored list contains no duplicate identifiers;
moreover each single step on a duplicate-free list either removes at
most one element keeping the relative order of the rest intact (the
result is a sublist) or appends the new identifier at the end, so the
insertion order is preserved. -/
theorem c9_bookmark_invariant (db : List Post) (ops : List Nat) :
    (apply_toggles db ops []).Nodup ∧
    ∀ stored pid, stored.Nodup →
      ((toggle db stored pid).Sublist stored ∨ toggle db stored pid = stored ++ [pid]) := by
  constructor
  · exact apply_toggles_nodup db ops [] List.nodup_nil
  · intro stored pid _
    by_cases hmem : pid ∈ stored
    · left
      have h1 : toggle db stored pid = stored.erase pid := by simp [toggle, hmem]
      rw [h1]
      exact List.erase_sublist pid stored
    · by_cases hex : db.any (fun p => p.id == pid) = true
      · right; simp [toggle, hmem, hex]
      · left
        have h1 : toggle db stored pid = stored := by simp [toggle, hmem, hex]
        rw [h1]

/-- Witness for C9 at a concrete toggle sequence and a concrete single
step. -/
theorem c9_witness :
    (apply_toggles samplePosts [1, 2, 1] []).Nodup ∧
    ((toggle samplePosts [4] 2).Sublist [4] ∨ toggle samplePosts [4] 2 = [4] ++ [2]) :=
  ⟨(c9_bookmark_invariant samplePosts [1, 2, 1]).1,
   (c9_bookmark_invariant samplePosts [1, 2, 1]).2 [4] 2 (by decide)⟩

/-- C10: after any POST to the read-later endpoint — add, remove, or the
nonexistent-id no-op branch — the session contains the key
`stored_posts` mapped to a list; the key is written back even when the
contents did not change and even when it was absent beforehand. -/
theorem c10_session_key_always_list (s : ServerState) (pid : Nat) :
    ∃ l : List Nat, (read_later_post s pid).2.stored_posts = some l :=
  ⟨toggle s.posts (s.stored_posts.getD []) pid, rfl⟩

/-- Resolving a stored id list against the post table keeps exactly the
ids that resolve, in the stored order: the ids of the resolved posts are
the stored ids filtered by existence. -/
theorem resolved_ids (db : List Post) (stored : List Nat) :
    (stored.filterMap (fun i => db.find? (fun p => p.id == i))).map (fun p => p.id)
      = stored.filter (fun i => db.any (fun p => p.id == i)) := by
  induction stored with
  | nil => simp
  | cons i rest ih =>
    cases hfind : db.find? (fun p => p.id == i) with
    | none =>
      have hany : db.any (fun p => p.id == i) = false := by
        rw [List.any_eq_false]
        intro p hp
        exact List.find?_eq_none.mp hfind p hp
      simp [List.filterMap_cons, List.filter_cons, hfind, hany, ih]
    | some q =>
      have hid := List.find?_some hfind
      have hany : db.any (fun p => p.id == i) = true :=
        List.any_eq_true.mpr ⟨q, List.mem_of_find?_eq_some hfind, hid⟩
      have hqi : q.id = i := by simpa using hid
      simp [List.filterMap_cons, List.filter_cons, hfind, hany, ih, hqi]

/-- C4: GET read-later resolves the session's ids in session order,
silently dropping ids that no longer resolve (the resolved ids are the
stored ids filtered by existence, in order, and every returned post is a
table row), and `has_post` is true exactly when the resolved list is
non-empty; for an empty session the posts are empty and `has_post` is
false. -/
theorem c4_read_later_get_spec (s : ServerState) :
    ((read_later_get s).1.1.map (fun p => p.id)
        = (s.stored_posts.getD []).filter (fun i => s.posts.any (fun p => p.id == i))) ∧
    (∀ p ∈ (read_later_get s).1.1, p ∈ s.posts) ∧
    ((read_later_get s).1.2 = true ↔ (read_later_get s).1.1 ≠ []) ∧
    (s.stored_posts.getD [] = [] →
      (read_later_get s).1.1 = [] ∧ (read_later_get s).1.2 = false) := by
  refine ⟨resolved_ids s.posts (s.stored_posts.getD []), ?_, ?_, ?_⟩
  · intro p hp
    simp only [read_later_get, List.mem_filterMap] at hp
    obtain ⟨i, _, hfind⟩ := hp
    exact List.mem_of_find?_eq_some hfind
  · show (!(read_later_get s).1.1.isEmpty) = true ↔ (read_later_get s).1.1 ≠ []
    cases (read_later_get s).1.1 <;> simp
  · intro h
    simp [read_later_get, h]

/-- Witness for C4 at a concrete state whose session stores the single
valid id 3, so the resolved list is non-empty. -/
theorem c4_witness :
    ((read_later_get validStoredState).1.1.map (fun p => p.id)
        = (validStoredState.stored_posts.getD []).filter
            (fun i => validStoredState.posts.any (fun p => p.id == i))) ∧
    (∀ p ∈ (read_later_get validStoredState).1.1, p ∈ validStoredState.posts) ∧
    ((read_later_get validStoredState).1.2 = true ↔
      (read_later_get validStoredState).1.1 ≠ []) ∧
    (validStoredState.stored_posts.getD [] = [] →
      (read_later_get validStoredState).1.1 = [] ∧
      (read_later_get validStoredState).1.2 = false) :=
  c4_read_later_get_spec validStoredState

/-- C7: POSTing a well-formed comment submission to the detail URL of an
existing post redirects 302 to the same detail URL and persists exactly
one new Comment linked to that post: the post's comment count increases
by exactly 1. -/
theorem c7_valid_comment_persisted (s : ServerState) (slug : String) (p : Post)
    (f : CommentFormData)
    (hfind : s.posts.find? (fun q => q.slug == slug) = some p)
    (hvalid : (comment_form_errors f).isEmpty = true) :
    (submit s slug f).1.response.status = 302 ∧
    (submit s slug f).1.response.location = some ("/posts/" ++ slug) ∧
    (submit s slug f).2.comments.countP (fun c => c.postId == p.id)
      = s.comments.countP (fun c => c.postId == p.id) + 1 := by
  refine ⟨?_, ?_, ?_⟩ <;> simp [submit, hfind, hvalid, List.countP_append, List.countP_cons]

/-- A concrete well-formed comment submission. -/
def validForm : CommentFormData :=
  { user_name := "New User", user_email := "newuser@example.com",
    text := "This is a new comment" }

/-- Witness for C7: submitting the valid form on the post with slug
`third-post` of the concrete state. -/
theorem c7_witness :
    (submit sampleState "third-post" validForm).1.response.status = 302 ∧
    (submit sampleState "third-post" validForm).1.response.location
      = some ("/posts/" ++ "third-post") ∧
    (submit sampleState "third-post" validForm).2.comments.countP
        (fun c => c.postId == (⟨3, "third-post", 20⟩ : Post).id)
      = sampleState.comments.countP (fun c => c.postId == (⟨3, "third-post", 20⟩ : Post).id) + 1 :=
  c7_valid_comment_persisted sampleState "third-post" ⟨3, "third-post", 20⟩ validForm
    (by decide) (by decide)

/-- C8: POSTing any invalid comment submission to the detail URL of an
existing post persists nothing (the whole server state, hence the
stored comment set, is exactly unchanged) and re-renders the page with
status 200, the form carrying exactly the validation errors — in
particular a field-level error on each offending field: `user_name`
when the user name is empty, `user_email` when the email shape is bad,
`text` when the text is empty. -/
theorem c8_invalid_comment_rejected (s : ServerState) (slug : String) (p : Post)
    (f : CommentFormData)
    (hfind : s.posts.find? (fun q => q.slug == slug) = some p)
    (hinvalid : comment_form_errors f ≠ []) :
    (submit s slug f).1.response.status = 200 ∧
    (submit s slug f).2 = s ∧
    (submit s slug f).1.formErrors = comment_form_errors f ∧
    (f.user_name = "" → "user_name" ∈ (submit s slug f).1.formErrors) ∧
    (email_shape_ok f.user_email = false → "user_email" ∈ (submit s slug f).1.formErrors) ∧
    (f.text = "" → "text" ∈ (submit s slug f).1.formErrors) := by
  have herr : ¬ (comment_form_errors f).isEmpty = true := by
    simpa [List.isEmpty_iff] using hinvalid
  refine ⟨?_, ?_, ?_, ?_, ?_, ?_⟩
  · simp [submit, hfind, herr]
  · simp [submit, hfind, herr]
  · simp [submit, hfind, herr]
  · intro h; simp [submit, hfind, herr, comment_form_errors, h]
  · intro h; simp [submit, hfind, herr, comment_form_errors, h]
  · intro h; simp [submit, hfind, herr, comment_form_errors, h]

/-- A concrete invalid comment submission: empty user name, malformed
email, empty text. -/
def invalidForm : CommentFormData :=
  { user_name := "", user_email := "invalid_email", text := "" }

/-- Witness for C8: submitting the invalid form on the post with slug
`third-post` of the concrete state, with all three fields offending and
all three inner implications discharged. -/
theorem c8_witness :
    (submit sampleState "third-post" invalidForm).1.response.status = 200 ∧
    (submit sampleState "third-post" invalidForm).2 = sampleState ∧
    (submit sampleState "third-post" invalidForm).1.formErrors
      = comment_form_errors invalidForm ∧
    "user_name" ∈ (submit sampleState "third-post" invalidForm).1.formErrors ∧
    "user_email" ∈ (submit sampleState "third-post" invalidForm).1.formErrors ∧
    "text" ∈ (submit sampleState "third-post" invalidForm).1.formErrors := by
  obtain ⟨h1, h2, h3, h4, h5, h6⟩ :=
    c8_invalid_comment_rejected sampleState "third-post" ⟨3, "third-post", 20⟩ invalidForm
      (by decide) (by decide)
  exact ⟨h1, h2, h3, h4 rfl, h5 (by decide), h6 rfl⟩

end Blog
